import Mathlib

/-
  Verification development for the bacnet-discovery tool.

  The definitions below are a shallow embedding of the BACnet/IP protocol
  engine in src/bacnet.rs: datagrams are lists of byte values (Nat, with
  explicit masking modulo 256 and 2^32 where the Rust code computes on u8
  and u32), socket receive loops become explicit lists of arriving
  (source, datagram) pairs, and fallible Rust code returns Option or an
  explicit result type.  Functions of the external bacnet_rs crate
  (NPDU, APDU and I-Am codecs, vendor table, object-type table) are
  modelled from the specification, with their models marked as such;
  everything else is translated directly from the repository source.
-/

/-- Network address of a peer, standing in for std::net::SocketAddr
(IPv4 octets and port). -/
structure SockAddr where
  o1 : Nat
  o2 : Nat
  o3 : Nat
  o4 : Nat
  port : Nat
deriving DecidableEq

/-- Display form of a socket address, as the Rust Display instance prints it. -/
def sockAddrString (a : SockAddr) : String :=
  toString a.o1 ++ "." ++ toString a.o2 ++ "." ++ toString a.o3 ++ "." ++
    toString a.o4 ++ ":" ++ toString a.port

/-- Message of the anyhow error produced at the end of send_confirmed_request
when the three second receive window elapses without a matching reply. -/
def timeoutMessage (addr : SockAddr) : String :=
  "Timeout waiting for response from " ++ sockAddrString addr

/-- Big-endian value of a byte list, each entry taken modulo 256 as in Rust
u32::from_be_bytes over u8 values. -/
def beBytes (bs : List Nat) : Nat :=
  bs.foldl (fun acc b => acc * 256 + b % 256) 0

/-- Big-endian four-byte encoding of a 32-bit value, as u32::to_be_bytes. -/
def toBeBytes4 (n : Nat) : List Nat :=
  [(n >>> 24) % 256, (n >>> 16) % 256, (n >>> 8) % 256, n % 256]

/-- Uppercase hex digit for a value below 16. -/
def hexDigit (n : Nat) : String :=
  if n < 10 then toString n
  else if n = 10 then "A"
  else if n = 11 then "B"
  else if n = 12 then "C"
  else if n = 13 then "D"
  else if n = 14 then "E"
  else "F"

/-- Two-digit uppercase hex rendering of a byte, as the Rust format
specifier 02X prints a u8. -/
def hexByte (b : Nat) : String :=
  hexDigit ((b % 256) / 16) ++ hexDigit (b % 16)

/-- Round num/den to the nearest integer, ties to even (den positive);
this is the rounding used by Rust fixed-precision float formatting. -/
def roundHalfEven (num den : Nat) : Nat :=
  let q := num / den
  let r := num % den
  if 2 * r < den then q
  else if den < 2 * r then q + 1
  else if q % 2 = 0 then q else q + 1

/-- Fixed two-decimal rendering of an IEEE-754 single given by its bits,
as the Rust format specifier .2 prints an f32 (exact binary value rounded
to hundredths, ties to even). -/
def f32Fixed2 (bits : Nat) : String :=
  let b := bits % 4294967296
  let sign := decide (2147483648 ≤ b)
  let expo := (b / 8388608) % 256
  let frac := b % 8388608
  if expo = 255 then
    if frac = 0 then (if sign then "-inf" else "inf") else "NaN"
  else
    let m := if expo = 0 then frac else 8388608 + frac
    let hundredths :=
      if 150 ≤ expo then m * 100 * 2 ^ (expo - 150)
      else roundHalfEven (m * 100) (2 ^ (if expo = 0 then 149 else 150 - expo))
    let whole := hundredths / 100
    let cents := hundredths % 100
    (if sign then "-" else "") ++ toString whole ++ "." ++
      (if cents < 10 then "0" ++ toString cents else toString cents)

/-- Modelled from the spec: the decoded NPDU header returned by
bacnet_rs Npdu::decode (version and control octets; the optional
destination, source and hop-count fields are consumed but not used by the
discovery tool). -/
structure Npdu where
  version : Nat
  control : Nat
deriving DecidableEq

/-- Modelled from the spec: bacnet_rs Npdu::decode.  The NPDU is a
variable-length header carrying version, control flags, optional
destination and source network fields and a hop count; the codec returns
the header together with the number of bytes consumed, and fails on
truncated input.  Control bit 0x20 announces the destination fields
(DNET, DLEN, DADR and a trailing hop count), bit 0x08 the source fields. -/
def npduDecode (d : List Nat) : Option (Npdu × Nat) :=
  if d.length < 2 then none
  else
    let v := d.getD 0 0
    let c := d.getD 1 0
    if v ≠ 1 then none
    else
      let afterDest : Option Nat :=
        if c &&& 0x20 ≠ 0 then
          if d.length < 5 then none
          else
            let dlen := d.getD 4 0
            if d.length < 5 + dlen then none else some (5 + dlen)
        else some 2
      match afterDest with
      | none => none
      | some o1 =>
        let afterSrc : Option Nat :=
          if c &&& 0x08 ≠ 0 then
            if d.length < o1 + 3 then none
            else
              let slen := d.getD (o1 + 2) 0
              if d.length < o1 + 3 + slen then none else some (o1 + 3 + slen)
          else some o1
        match afterSrc with
        | none => none
        | some o2 =>
          let consumed := if c &&& 0x20 ≠ 0 then o2 + 1 else o2
          if d.length < consumed then none
          else some ({ version := v, control := c }, consumed)

/-- Modelled from the spec: the APDU variants used by the tool, as
decoded by bacnet_rs Apdu::decode.  PDU type is the first nibble of the
first octet: 0 Confirmed-Request, 1 Unconfirmed-Request, 3 ComplexAck,
5 Error, 6 Reject, 7 Abort. -/
inductive Apdu where
  | confirmedRequest (invoke_id service_choice : Nat) (service_data : List Nat)
  | unconfirmedRequest (service_choice : Nat) (service_data : List Nat)
  | complexAck (invoke_id service_choice : Nat) (service_data : List Nat)
  | errorPdu (invoke_id error_class error_code : Nat)
  | reject (invoke_id reason : Nat)
  | abort (invoke_id reason : Nat)
deriving DecidableEq

/-- Modelled from the spec: bacnet_rs Apdu::decode.  Segmented PDUs are
out of scope and fail to decode; Error, Reject and Abort carry their
invoke id and reason octets. -/
def apduDecode (d : List Nat) : Option Apdu :=
  match d with
  | [] => none
  | t :: rest =>
    let pduType := (t % 256) / 16
    if pduType = 0 then
      if t &&& 0x08 ≠ 0 then none
      else match rest with
        | _ :: inv :: svc :: sdata => some (Apdu.confirmedRequest inv svc sdata)
        | _ => none
    else if pduType = 1 then
      match rest with
      | svc :: sdata => some (Apdu.unconfirmedRequest svc sdata)
      | _ => none
    else if pduType = 3 then
      if t &&& 0x08 ≠ 0 then none
      else match rest with
        | inv :: svc :: sdata => some (Apdu.complexAck inv svc sdata)
        | _ => none
    else if pduType = 5 then
      match rest with
      | inv :: c1 :: c2 :: _ => some (Apdu.errorPdu inv c1 c2)
      | _ => none
    else if pduType = 6 then
      match rest with
      | inv :: r :: _ => some (Apdu.reject inv r)
      | _ => none
    else if pduType = 7 then
      match rest with
      | inv :: r :: _ => some (Apdu.abort inv r)
      | _ => none
    else none

/-- Modelled from the spec: the fields of a decoded I-Am request
(bacnet_rs IAmRequest), in wire order objectIdentifier,
maxAPDULengthAccepted, segmentationSupported, vendorID. -/
structure IAmFields where
  object_type : Nat
  instance_number : Nat
  max_apdu : Nat
  segmentation : Nat
  vendor_id : Nat
deriving DecidableEq

/-- Modelled from the spec: decoding of one application-tagged unsigned
integer (tag number 2, length one to four bytes), returning the value and
the remaining input. -/
def decodeUnsigned (d : List Nat) : Option (Nat × List Nat) :=
  match d with
  | [] => none
  | t :: rest =>
    if t / 16 = 2 ∧ 1 ≤ t % 16 ∧ t % 16 ≤ 4 ∧ t % 16 ≤ rest.length then
      some (beBytes (rest.take (t % 16)), rest.drop (t % 16))
    else none

/-- Modelled from the spec: bacnet_rs IAmRequest::decode.  The body is
an application ObjectIdentifier (tag 0xC4, four bytes packed as type
shifted left 22 or-ed with instance), an unsigned maxAPDULengthAccepted,
an enumerated segmentationSupported (tag 0x91, one byte) and an unsigned
vendorID. -/
def iamDecode (d : List Nat) : Option IAmFields :=
  match d with
  | 0xC4 :: b1 :: b2 :: b3 :: b4 :: rest =>
    let enc := beBytes [b1, b2, b3, b4]
    match decodeUnsigned rest with
    | none => none
    | some (maxApdu, rest2) =>
      match rest2 with
      | s :: segv :: rest3 =>
        if s = 0x91 then
          match decodeUnsigned rest3 with
          | none => none
          | some (vendor, _) =>
            some { object_type := (enc >>> 22) &&& 0x3FF,
                   instance_number := enc &&& 0x3FFFFF,
                   max_apdu := maxApdu,
                   segmentation := segv % 256,
                   vendor_id := vendor }
        else none
      | _ => none
  | _ => none

/-- Record produced for each discovered device (struct DiscoveredDevice in
src/bacnet.rs; the last_seen wall-clock field is outside the embedding). -/
structure DiscoveredDevice where
  device_id : Nat
  address : SockAddr
  vendor_id : Nat
  vendor_name : String
  max_apdu : Nat
  segmentation : Nat
deriving DecidableEq

/-- Translation of process_response from src/bacnet.rs.  The vendor table
of the external bacnet_rs crate (get_vendor_name, keyed by u16) is passed
as a parameter; the source casts the decoded u32 vendor id to u16 before
the lookup, hence the reduction modulo 65536. -/
def process_response (vendors : Nat → Option String) (data : List Nat)
    (source : SockAddr) : Option DiscoveredDevice :=
  if data.length < 4 ∨ data.getD 0 0 ≠ 0x81 then none
  else
    let bvlc_func := data.getD 1 0
    match (if bvlc_func = 0x0A ∨ bvlc_func = 0x0B then some 4
           else if bvlc_func = 0x04 then some 10 else none) with
    | none => none
    | some npdu_start =>
      if data.length ≤ npdu_start then none
      else
        match npduDecode (data.drop npdu_start) with
        | none => none
        | some (_npdu, npdu_len) =>
          let apdu_start := npdu_start + npdu_len
          if data.length ≤ apdu_start then none
          else
            let apdu := data.drop apdu_start
            if apdu.length < 2 ∨ apdu.getD 0 0 ≠ 0x10 ∨ apdu.getD 1 0 ≠ 0 then none
            else
              match iamDecode (apdu.drop 2) with
              | none => none
              | some iam =>
                some { device_id := iam.instance_number,
                       address := source,
                       vendor_id := iam.vendor_id,
                       vendor_name := (vendors (iam.vendor_id % 65536)).getD "Unknown Vendor",
                       max_apdu := iam.max_apdu,
                       segmentation := iam.segmentation }

/-- Frame-level I-Am extraction following the layering described by the
spec (sections 4.1 and 6): BVLC header check with function-dependent NPDU
offset, NPDU skip, unconfirmed I-Am APDU marker, then the I-Am body. -/
def iAmOfFrame (data : List Nat) : Option IAmFields :=
  if data.length < 4 ∨ data.getD 0 0 ≠ 0x81 then none
  else
    let bvlc_func := data.getD 1 0
    match (if bvlc_func = 0x0A ∨ bvlc_func = 0x0B then some 4
           else if bvlc_func = 0x04 then some 10 else none) with
    | none => none
    | some npdu_start =>
      if data.length ≤ npdu_start then none
      else
        match npduDecode (data.drop npdu_start) with
        | none => none
        | some (_npdu, npdu_len) =>
          let apdu_start := npdu_start + npdu_len
          if data.length ≤ apdu_start then none
          else
            let apdu := data.drop apdu_start
            if apdu.length < 2 ∨ apdu.getD 0 0 ≠ 0x10 ∨ apdu.getD 1 0 ≠ 0 then none
            else iamDecode (apdu.drop 2)

/-- Device record built by process_response from a decoded I-Am. -/
def mkDiscoveredDevice (vendors : Nat → Option String) (source : SockAddr)
    (iam : IAmFields) : DiscoveredDevice :=
  { device_id := iam.instance_number,
    address := source,
    vendor_id := iam.vendor_id,
    vendor_name := (vendors (iam.vendor_id % 65536)).getD "Unknown Vendor",
    max_apdu := iam.max_apdu,
    segmentation := iam.segmentation }

/-- Object record created for every enumerated point (struct BacnetObject
in src/app.rs; the last_updated wall-clock field is outside the
embedding).  The identifier is the pair of object-type code and instance. -/
structure BacnetObject where
  id : Nat × Nat
  name : String
  present_value : String
  units : String
deriving DecidableEq

/-- Object record as read_device_objects builds it: debug-printed type
name, colon, instance; value N/A; empty units.  The rendering of the Rust
ObjectType debug name is passed as a parameter. -/
def mkBacnetObject (typeName : Nat → String) (t inst : Nat) : BacnetObject :=
  { id := (t, inst),
    name := typeName t ++ ":" ++ toString inst,
    present_value := "N/A",
    units := "" }

/-- Translation of the response-scanning loop of read_device_objects in
src/bacnet.rs: while at least five bytes remain, a 0xC4 octet starts a
packed ObjectIdentifier (four big-endian bytes, type in the top ten bits,
instance in the low twenty-two); identifiers whose type code is accepted
by bacnet_rs ObjectType::try_from (the predicate known, modelled from the
spec) and differs from Device (wire code 8) are kept; any other octet
advances the scan by one. -/
def scanObjects (known : Nat → Bool) (typeName : Nat → String) : List Nat → List BacnetObject
  | b :: b1 :: b2 :: b3 :: b4 :: r =>
    if b = 0xC4 then
      let enc := beBytes [b1, b2, b3, b4]
      let obj_type := (enc >>> 22) &&& 0x3FF
      let inst := enc &&& 0x3FFFFF
      if known obj_type && (obj_type != 8) then
        mkBacnetObject typeName obj_type inst :: scanObjects known typeName r
      else
        scanObjects known typeName r
    else
      scanObjects known typeName (b1 :: b2 :: b3 :: b4 :: r)
  | _ => []

/-- Identifiers decoded at the 0xC4 runs the scan of read_device_objects
visits, before any filtering, following the spec wording that the body is
scanned for runs of 0xC4-tagged ObjectIdentifiers. -/
def c4Identifiers : List Nat → List (Nat × Nat)
  | b :: b1 :: b2 :: b3 :: b4 :: r =>
    if b = 0xC4 then
      let enc := beBytes [b1, b2, b3, b4]
      ((enc >>> 22) &&& 0x3FF, enc &&& 0x3FFFFF) :: c4Identifiers r
    else c4Identifiers (b1 :: b2 :: b3 :: b4 :: r)
  | _ => []

/-- Translation of the value-parsing tail of read_present_value in
src/bacnet.rs (the comment in the source calls 0x2E the opening tag of
propertyValue): when the response starts with octet 0x2E and has at least
three bytes, the octets strictly between the first and last byte are
examined; tag 0x44 renders a Real, 0x11 a Boolean, 0x21 a one-byte
Unsigned, any other first octet renders as Tag 0xNN; every fall-through
path yields N/A. -/
def parse_present_value (response : List Nat) : String :=
  if 3 ≤ response.length ∧ response.getD 0 0 = 0x2E then
    let val_data := (response.drop 1).take (response.length - 2)
    if val_data ≠ [] then
      let t := val_data.getD 0 0
      if t = 0x44 then
        if 5 ≤ val_data.length then f32Fixed2 (beBytes ((val_data.drop 1).take 4))
        else "N/A"
      else if t = 0x11 then
        if 2 ≤ val_data.length then
          if val_data.getD 1 0 % 256 ≠ 0 then "Active" else "Inactive"
        else "N/A"
      else if t = 0x21 then
        if 2 ≤ val_data.length then toString (val_data.getD 1 0 % 256) else "N/A"
      else "Tag 0x" ++ hexByte t
    else "N/A"
  else "N/A"

/-- Outcome of a client operation: an Ok value, an anyhow error returned
to the caller, or a Rust panic propagating out of the call. -/
inductive OpResult (α : Type) where
  | ok (val : α)
  | err (msg : String)
  | crashed (msg : String)
deriving DecidableEq

/-- Rust slice-from operation on a byte buffer: data[i..] yields the tail
from index i, and panics when i exceeds the length. -/
def sliceFrom (data : List Nat) (i : Nat) : Except String (List Nat) :=
  if i ≤ data.length then Except.ok (data.drop i)
  else Except.error ("range start index " ++ toString i ++
    " out of range for slice of length " ++ toString data.length)

/-- Header, NPDU and APDU stage of parse_confirmed_response in
src/bacnet.rs: BVLC check accepting only functions 0x0A (offset 4) and
0x04 (offset 10), two unguarded slice-from operations, NPDU decode, APDU
decode.  An Except error is a Rust panic; an Ok none is a silently
dropped datagram. -/
def frameApdu (data : List Nat) : Except String (Option Apdu) :=
  if data.length < 4 ∨ data.getD 0 0 ≠ 0x81 then Except.ok none
  else
    match (if data.getD 1 0 = 0x0A then some 4
           else if data.getD 1 0 = 0x04 then some 10 else none) with
    | none => Except.ok none
    | some npdu_start =>
      match sliceFrom data npdu_start with
      | Except.error m => Except.error m
      | Except.ok s1 =>
        match npduDecode s1 with
        | none => Except.ok none
        | some (_npdu, npdu_len) =>
          match sliceFrom data (npdu_start + npdu_len) with
          | Except.error m => Except.error m
          | Except.ok s2 => Except.ok (apduDecode s2)

/-- Translation of parse_confirmed_response from src/bacnet.rs: decode
the frame down to an APDU, deliver the body of a ComplexAck whose invoke
id matches, log and drop an Error, drop everything else. -/
def parse_confirmed_response (data : List Nat) (expected_invoke_id : Nat) :
    Except String (Option (List Nat)) :=
  match frameApdu data with
  | Except.error m => Except.error m
  | Except.ok none => Except.ok none
  | Except.ok (some apdu) =>
    match apdu with
    | Apdu.complexAck inv _svc sdata =>
      Except.ok (if inv = expected_invoke_id then some sdata else none)
    | Apdu.errorPdu _inv _c _k => Except.ok none
    | _ => Except.ok none

/-- Translation of the receive loop of send_confirmed_request in
src/bacnet.rs over the finite list of datagrams arriving within the three
second window: datagrams from other sources are ignored, a non-matching
or malformed datagram from the peer continues the loop, a matching
ComplexAck returns its body, and an exhausted window yields the timeout
error naming the peer.  A panic inside the response parser propagates. -/
def send_confirmed_request (arrivals : List (SockAddr × List Nat))
    (addr : SockAddr) (invoke_id : Nat) (service_choice : Nat)
    (service_data : List Nat) : OpResult (List Nat) :=
  match arrivals with
  | [] => OpResult.err (timeoutMessage addr)
  | (src, pkt) :: rest =>
    if src = addr then
      match parse_confirmed_response pkt invoke_id with
      | Except.error m => OpResult.crashed m
      | Except.ok (some d) => OpResult.ok d
      | Except.ok none => send_confirmed_request rest addr invoke_id service_choice service_data
    else send_confirmed_request rest addr invoke_id service_choice service_data

/-- Packed 32-bit object identifier, as both src/bacnet.rs encoders
compute it: type shifted left 22 (u32 wrap-around) or-ed with the
instance masked to 22 bits. -/
def encodeObjectId (obj : Nat × Nat) : Nat :=
  ((obj.1 <<< 22) % 4294967296) ||| (obj.2 &&& 0x3FFFFF)

/-- Translation of encode_rpm_request_into from src/bacnet.rs over the
read-access specifications (object identifier and property ids): context
tag 0 with the packed object id, opening tag 1, one context-0 property
reference per property, closing tag 1. -/
def encode_rpm_request_into (specs : List ((Nat × Nat) × List Nat)) : List Nat :=
  specs.foldr (fun spec acc =>
    [0x0C] ++ toBeBytes4 (encodeObjectId spec.1) ++ [0x1E] ++
      (spec.2.foldr (fun p acc2 => 0x09 :: p % 256 :: acc2) []) ++ [0x1F] ++ acc) []

/-- The confirmed-request APDU content assembled by send_confirmed_request
for one operation: invoke id, service choice, service body. -/
structure ConfirmedRequestApdu where
  invoke_id : Nat
  service_choice : Nat
  service_data : List Nat
deriving DecidableEq

/-- Confirmed request issued by read_device_objects in src/bacnet.rs:
invoke id is the constant 1, service choice 14 (ReadPropertyMultiple),
body a single read-access specification for Device:device_id property 76
(Object_List). -/
def read_device_objects_request (device_id : Nat) : ConfirmedRequestApdu :=
  { invoke_id := 1,
    service_choice := 14,
    service_data := encode_rpm_request_into [((8, device_id), [76])] }

/-- Confirmed request issued by read_present_value in src/bacnet.rs:
invoke id is the constant 2, service choice 12 (ReadProperty), body the
context-0 object identifier followed by context-1 property 85
(Present_Value). -/
def read_present_value_request (obj : Nat × Nat) : ConfirmedRequestApdu :=
  { invoke_id := 2,
    service_choice := 12,
    service_data := [0x0C] ++ toBeBytes4 (encodeObjectId obj) ++ [0x09, 0x55] }

/-- Translation of read_device_objects from src/bacnet.rs: send the
ReadPropertyMultiple request with invoke id 1, then scan the ComplexAck
body for object identifiers. -/
def read_device_objects (known : Nat → Bool) (typeName : Nat → String)
    (arrivals : List (SockAddr × List Nat)) (addr : SockAddr)
    (device_id : Nat) : OpResult (List BacnetObject) :=
  let service_data := encode_rpm_request_into [((8, device_id), [76])]
  match send_confirmed_request arrivals addr 1 14 service_data with
  | OpResult.ok response => OpResult.ok (scanObjects known typeName response)
  | OpResult.err m => OpResult.err m
  | OpResult.crashed m => OpResult.crashed m

/-- Translation of read_present_value from src/bacnet.rs: send the
ReadProperty request with invoke id 2, then parse the returned value. -/
def read_present_value (arrivals : List (SockAddr × List Nat))
    (addr : SockAddr) (obj : Nat × Nat) : OpResult String :=
  let apdu_service_data := [0x0C] ++ toBeBytes4 (encodeObjectId obj) ++ [0x09, 0x55]
  match send_confirmed_request arrivals addr 2 12 apdu_service_data with
  | OpResult.ok response => OpResult.ok (parse_present_value response)
  | OpResult.err m => OpResult.err m
  | OpResult.crashed m => OpResult.crashed m

/-- Recognizer for frames whose APDU decodes to an Error, Reject or Abort
PDU (the reply kinds the spec says must be delivered as classified
failures). -/
def isErrRejAbort : Apdu → Bool
  | Apdu.errorPdu _ _ _ => true
  | Apdu.reject _ _ => true
  | Apdu.abort _ _ => true
  | _ => false

/-- Indexing the second element of a list of at least two elements. -/
theorem getD_cons_one {α : Type} (a b : α) (l : List α) (d : α) :
    (a :: b :: l).getD 1 d = b := rfl

/-- Length of a list with four explicit leading elements. -/
theorem length_cons_four {α : Type} (a b c d : α) (l : List α) :
    (a :: b :: c :: d :: l).length = l.length + 4 := rfl

/-- Dropping the four explicit leading elements. -/
theorem drop_four {α : Type} (a b c d : α) (l : List α) :
    (a :: b :: c :: d :: l).drop 4 = l := rfl

/-- Dropping ten elements from a list with four explicit leading elements. -/
theorem drop_ten {α : Type} (a b c d : α) (l : List α) :
    (a :: b :: c :: d :: l).drop 10 = l.drop 6 := by
  rfl

/-- Dropping four plus n elements skips the four explicit leading elements. -/
theorem drop_four_add {α : Type} (a b c d : α) (l : List α) (n : Nat) :
    (a :: b :: c :: d :: l).drop (4 + n) = l.drop n := by
  rw [Nat.add_comm]
  rfl

/-- Dropping ten plus n elements skips the four explicit leading elements
and six more. -/
theorem drop_ten_add {α : Type} (a b c d : α) (l : List α) (n : Nat) :
    (a :: b :: c :: d :: l).drop (10 + n) = l.drop (6 + n) := by
  rw [Nat.add_comm 10 n, Nat.add_comm 6 n]
  rfl

/-- The device record process_response returns is exactly the image of the
frame-level I-Am extraction under the record constructor. -/
theorem process_response_eq_map (vendors : Nat → Option String) (data : List Nat)
    (source : SockAddr) :
    process_response vendors data source =
      (iAmOfFrame data).map (mkDiscoveredDevice vendors source) := by
  unfold process_response iAmOfFrame
  dsimp only
  repeat' (first | rfl | split)
  all_goals simp_all [mkDiscoveredDevice]

/-- The frame-level I-Am extraction never reads octets 2 and 3 of the
datagram (the BVLC length field): replacing them changes nothing. -/
theorem iAmOfFrame_ignores_length_octets (b0 b1 x y x2 y2 : Nat) (rest : List Nat) :
    iAmOfFrame (b0 :: b1 :: x :: y :: rest) = iAmOfFrame (b0 :: b1 :: x2 :: y2 :: rest) := by
  unfold iAmOfFrame
  dsimp only
  simp only [getD_cons_one, List.getD_cons_zero, length_cons_four]
  split
  · rfl
  · split
    · rename_i heq
      rw [heq]
    · rename_i npdu_start heq
      split at heq
      · rename_i hcond
        injection heq with h
        subst h
        rw [if_pos hcond]
        simp only [drop_four, drop_four_add]
      · rename_i hcond1
        split at heq
        · rename_i hcond2
          injection heq with h
          subst h
          rw [if_neg hcond1, if_pos hcond2]
          simp only [drop_ten, drop_ten_add]
        · exact absurd heq (by simp)

/-- Sample vendor table: id 260 known, everything else unknown. -/
def vendorsW : Nat → Option String := fun v => if v = 260 then some "Acme Controls" else none

/-- Sample object-type acceptance predicate: wire codes below 60 decode. -/
def knownW : Nat → Bool := fun t => decide (t < 60)

/-- Sample debug rendering of object-type codes. -/
def typeNameW : Nat → String :=
  fun t => if t = 0 then "AnalogInput" else "ObjectType" ++ toString t

/-- Source address used by the discovery witnesses. -/
def srcW : SockAddr := { o1 := 192, o2 := 168, o3 := 1, o4 := 100, port := 47808 }

/-- Peer address used by the confirmed-request witnesses. -/
def peerW : SockAddr := { o1 := 127, o2 := 0, o3 := 0, o4 := 1, port := 47808 }

/-- An address different from the peer. -/
def otherW : SockAddr := { o1 := 10, o2 := 0, o3 := 0, o4 := 9, port := 47808 }

/-- Well-formed I-Am frame for device 1234, vendor 260, max-APDU 1476,
segmentation 0, with a correct BVLC length field of 21. -/
def iamFrameW : List Nat :=
  [0x81, 0x0A, 0x00, 0x15, 0x01, 0x00, 0x10, 0x00,
   0xC4, 0x02, 0x00, 0x04, 0xD2, 0x22, 0x05, 0xC4, 0x91, 0x00, 0x22, 0x01, 0x04]

/-- The same well-formed I-Am frame with the BVLC length field overwritten
by 0xDEAD, which does not match the actual datagram length of 21. -/
def badLenFrameW : List Nat :=
  [0x81, 0x0B, 0xDE, 0xAD, 0x01, 0x00, 0x10, 0x00,
   0xC4, 0x02, 0x00, 0x04, 0xD2, 0x22, 0x05, 0xC4, 0x91, 0x00, 0x22, 0x01, 0x04]

/-- C4: the claim says a mismatched declared BVLC length makes
process_response drop the packet; in fact the length field is never read,
and this well-formed I-Am whose declared length 57005 differs from its
actual length 21 still yields a discovered device. -/
theorem mismatched_bvlc_length_still_yields_device :
    badLenFrameW.getD 2 0 * 256 + badLenFrameW.getD 3 0 ≠ badLenFrameW.length ∧
    process_response (fun _ => none) badLenFrameW srcW =
      some { device_id := 1234, address := srcW, vendor_id := 260,
             vendor_name := "Unknown Vendor", max_apdu := 1476, segmentation := 0 } := by
  constructor
  · decide
  · rfl

/-- C4 (amended): process_response never reads octets 2 and 3 (the BVLC
length field), so a frame whose declared length disagrees with the
datagram length is processed exactly like one whose length matches; there
is no drop and no logging of the mismatch. -/
theorem process_response_ignores_length_octets (vendors : Nat → Option String)
    (source : SockAddr) (b0 b1 x y x2 y2 : Nat) (rest : List Nat) :
    process_response vendors (b0 :: b1 :: x :: y :: rest) source =
      process_response vendors (b0 :: b1 :: x2 :: y2 :: rest) source := by
  rw [process_response_eq_map, process_response_eq_map,
    iAmOfFrame_ignores_length_octets b0 b1 x y x2 y2 rest]

/-- C5: for every datagram that decodes as a valid I-Am carrying device id
D and a 16-bit vendor id V, received from source S, process_response
returns a record with device_id D, address S, and the static-table vendor
name for V, defaulting to Unknown Vendor when V is not in the table. -/
theorem process_response_fields_from_iam (vendors : Nat → Option String)
    (data : List Nat) (source : SockAddr) (iam : IAmFields)
    (hdec : iAmOfFrame data = some iam) (hv : iam.vendor_id < 65536) :
    process_response vendors data source =
      some { device_id := iam.instance_number,
             address := source,
             vendor_id := iam.vendor_id,
             vendor_name := (vendors iam.vendor_id).getD "Unknown Vendor",
             max_apdu := iam.max_apdu,
             segmentation := iam.segmentation } := by
  rw [process_response_eq_map, hdec]
  simp [mkDiscoveredDevice, Nat.mod_eq_of_lt hv]

/-- Witness for C5 at the concrete I-Am frame of device 1234, vendor 260. -/
theorem process_response_fields_from_iam_witness :
    iAmOfFrame iamFrameW = some { object_type := 8, instance_number := 1234,
                                  max_apdu := 1476, segmentation := 0, vendor_id := 260 } ∧
    process_response vendorsW iamFrameW srcW =
      some { device_id := 1234, address := srcW, vendor_id := 260,
             vendor_name := "Acme Controls", max_apdu := 1476, segmentation := 0 } := by
  constructor
  · rfl
  · exact process_response_fields_from_iam vendorsW iamFrameW srcW
      { object_type := 8, instance_number := 1234, max_apdu := 1476,
        segmentation := 0, vendor_id := 260 } (by rfl) (by decide)

/-- C6: a datagram shorter than four octets, or whose first octet is not
0x81, or whose BVLC function octet is none of 0x04, 0x0A, 0x0B, never
produces a device. -/
theorem process_response_rejects_invalid_header (vendors : Nat → Option String)
    (data : List Nat) (source : SockAddr)
    (h : data.length < 4 ∨ data.getD 0 0 ≠ 0x81 ∨
         (data.getD 1 0 ≠ 0x04 ∧ data.getD 1 0 ≠ 0x0A ∧ data.getD 1 0 ≠ 0x0B)) :
    process_response vendors data source = none := by
  unfold process_response
  rcases h with h | h | ⟨h4, hA, hB⟩
  · rw [if_pos (Or.inl h)]
  · rw [if_pos (Or.inr h)]
  · by_cases h81 : data.length < 4 ∨ data.getD 0 0 ≠ 0x81
    · rw [if_pos h81]
    · rw [if_neg h81]
      simp_all

/-- Witness for C6 at the three-byte junk datagram from scenario b of the
spec. -/
theorem process_response_rejects_invalid_header_witness :
    ([0, 1, 2] : List Nat).length < 4 ∧
    process_response vendorsW [0, 1, 2] srcW = none := by
  refine ⟨by decide, ?_⟩
  exact process_response_rejects_invalid_header vendorsW [0, 1, 2] srcW (Or.inl (by decide))

/-- C1 (counterexample): two concurrent present-value polls, here for
objects AnalogInput 1 and AnalogInput 2, both carry the same hardcoded
invoke id 2, so concurrent confirmed requests do not always carry
distinct invoke ids and no rolling counter exists. -/
theorem read_present_value_requests_share_invoke_id :
    (read_present_value_request (0, 1)).invoke_id =
      (read_present_value_request (0, 2)).invoke_id ∧
    (read_present_value_request (0, 1)).invoke_id = 2 := by
  exact ⟨rfl, rfl⟩

/-- C1 (amended): invoke ids are fixed constants rather than allocated:
every object-list enumeration carries invoke id 1 and every present-value
poll carries invoke id 2; an enumeration and a poll therefore always
differ, but two present-value polls always coincide. -/
theorem invoke_ids_are_fixed_constants (device_id : Nat) (obj : Nat × Nat) :
    (read_device_objects_request device_id).invoke_id = 1 ∧
    (read_present_value_request obj).invoke_id = 2 := by
  exact ⟨rfl, rfl⟩

/-- The scanning loop of read_device_objects returns, in order, exactly
the identifiers found by the 0xC4 scan whose type code decodes and is not
Device, each packaged as an object record. -/
theorem scanObjects_eq_filter (known : Nat → Bool) (typeName : Nat → String) :
    (resp : List Nat) →
    scanObjects known typeName resp =
      ((c4Identifiers resp).filter (fun p => known p.1 && (p.1 != 8))).map
        (fun p => mkBacnetObject typeName p.1 p.2)
  | [] => rfl
  | [_] => rfl
  | [_, _] => rfl
  | [_, _, _] => rfl
  | [_, _, _, _] => rfl
  | b :: b1 :: b2 :: b3 :: b4 :: r => by
    have ih := scanObjects_eq_filter known typeName r
    have ih4 := scanObjects_eq_filter known typeName (b1 :: b2 :: b3 :: b4 :: r)
    by_cases hb : b = 0xC4
    · simp only [scanObjects, c4Identifiers, if_pos hb]
      split
      · rename_i hk
        simp [List.filter_cons, hk, ih]
      · rename_i hk
        simp only [Bool.not_eq_true] at hk
        simp [List.filter_cons, hk, ih]
    · simp only [scanObjects, c4Identifiers, if_neg hb]
      exact ih4
termination_by resp => resp.length

/-- C7: whenever the ReadPropertyMultiple exchange of read_device_objects
yields a ComplexAck body, the operation returns exactly the objects
decoded from the 0xC4-tagged identifiers the scan finds in that body
whose type code is known and differs from Device; Device-typed and
unknown-typed identifiers are excluded. -/
theorem read_device_objects_filters_c4_scan (known : Nat → Bool)
    (typeName : Nat → String) (arrivals : List (SockAddr × List Nat))
    (addr : SockAddr) (device_id : Nat) (response : List Nat)
    (hsend : send_confirmed_request arrivals addr 1 14
        (encode_rpm_request_into [((8, device_id), [76])]) = OpResult.ok response) :
    read_device_objects known typeName arrivals addr device_id =
      OpResult.ok (((c4Identifiers response).filter (fun p => known p.1 && (p.1 != 8))).map
        (fun p => mkBacnetObject typeName p.1 p.2)) := by
  unfold read_device_objects
  dsimp only
  rw [hsend]
  exact congrArg OpResult.ok (scanObjects_eq_filter known typeName response)

/-- Object-list ack body used by the C7 witness: Device:12345,
AnalogInput:1 and an identifier with unknown type code 99, inside the
usual RPM ack framing. -/
def rpmBodyW : List Nat :=
  [0x0C, 0x02, 0x00, 0x30, 0x39, 0x1E, 0x29, 0x4C, 0x4E,
   0xC4, 0x02, 0x00, 0x30, 0x39,
   0xC4, 0x00, 0x00, 0x00, 0x01,
   0xC4, 0x18, 0xC0, 0x00, 0x07,
   0x4F, 0x1F]

/-- Full ComplexAck frame carrying rpmBodyW with invoke id 1. -/
def rpmFrameW : List Nat :=
  [0x81, 0x0A, 0x00, 0x23, 0x01, 0x00, 0x30, 0x01, 0x0E] ++ rpmBodyW

/-- Witness for C7: from the ack listing Device:12345, AnalogInput:1 and
an unknown type 99, only AnalogInput:1 is returned. -/
theorem read_device_objects_filters_c4_scan_witness :
    send_confirmed_request [(peerW, rpmFrameW)] peerW 1 14
      (encode_rpm_request_into [((8, 12345), [76])]) = OpResult.ok rpmBodyW ∧
    read_device_objects knownW typeNameW [(peerW, rpmFrameW)] peerW 12345 =
      OpResult.ok [{ id := (0, 1), name := "AnalogInput:1",
                     present_value := "N/A", units := "" }] := by
  have hsend : send_confirmed_request [(peerW, rpmFrameW)] peerW 1 14
      (encode_rpm_request_into [((8, 12345), [76])]) = OpResult.ok rpmBodyW := by rfl
  refine ⟨hsend, ?_⟩
  exact (read_device_objects_filters_c4_scan knownW typeNameW
    [(peerW, rpmFrameW)] peerW 12345 rpmBodyW hsend).trans (by rfl)

/-- If every datagram arriving from the peer inside the receive window
fails to parse as a matching reply (without tripping a panic), the
receive loop exhausts the window and reports the timeout naming the
peer. -/
theorem send_confirmed_request_timeout (arrivals : List (SockAddr × List Nat))
    (addr : SockAddr) (invoke_id service_choice : Nat) (service_data : List Nat)
    (h : ∀ p ∈ arrivals, p.1 = addr →
      parse_confirmed_response p.2 invoke_id = Except.ok none) :
    send_confirmed_request arrivals addr invoke_id service_choice service_data =
      OpResult.err (timeoutMessage addr) := by
  induction arrivals with
  | nil => rfl
  | cons p rest ih =>
    obtain ⟨src, pkt⟩ := p
    have hrest : ∀ q ∈ rest, q.1 = addr →
        parse_confirmed_response q.2 invoke_id = Except.ok none :=
      fun q hq => h q (List.mem_cons_of_mem _ hq)
    by_cases hs : src = addr
    · have hp := h (src, pkt) (List.mem_cons_self _ _) hs
      simp only [send_confirmed_request, if_pos hs, hp]
      exact ih hrest
    · simp only [send_confirmed_request, if_neg hs]
      exact ih hrest

/-- C8: when no arriving datagram from the peer is accepted as a matching
reply, both read_device_objects (invoke id 1) and read_present_value
(invoke id 2) fail with the timeout error that names the peer address. -/
theorem no_reply_times_out_with_peer (known : Nat → Bool) (typeName : Nat → String)
    (arrivals : List (SockAddr × List Nat)) (addr : SockAddr)
    (device_id : Nat) (obj : Nat × Nat)
    (h : ∀ p ∈ arrivals, p.1 = addr →
      parse_confirmed_response p.2 1 = Except.ok none ∧
      parse_confirmed_response p.2 2 = Except.ok none) :
    read_device_objects known typeName arrivals addr device_id =
      OpResult.err (timeoutMessage addr) ∧
    read_present_value arrivals addr obj = OpResult.err (timeoutMessage addr) := by
  constructor
  · unfold read_device_objects
    dsimp only
    rw [send_confirmed_request_timeout arrivals addr 1 14 _
      (fun p hp hq => (h p hp hq).1)]
  · unfold read_present_value
    dsimp only
    rw [send_confirmed_request_timeout arrivals addr 2 12 _
      (fun p hp hq => (h p hp hq).2)]

/-- Witness for C8: with only one datagram, arriving from a different
address, both operations time out naming the peer. -/
theorem no_reply_times_out_with_peer_witness :
    (∀ p ∈ [(otherW, ([] : List Nat))], p.1 = peerW →
      parse_confirmed_response p.2 1 = Except.ok none ∧
      parse_confirmed_response p.2 2 = Except.ok none) ∧
    read_device_objects knownW typeNameW [(otherW, [])] peerW 77 =
      OpResult.err (timeoutMessage peerW) ∧
    read_present_value [(otherW, [])] peerW (0, 1) =
      OpResult.err (timeoutMessage peerW) := by
  have hy : ∀ p ∈ [(otherW, ([] : List Nat))], p.1 = peerW →
      parse_confirmed_response p.2 1 = Except.ok none ∧
      parse_confirmed_response p.2 2 = Except.ok none := by
    intro p hp hq
    simp only [List.mem_singleton] at hp
    subst hp
    exact absurd hq (by decide)
  exact ⟨hy, no_reply_times_out_with_peer knownW typeNameW
    [(otherW, [])] peerW 77 (0, 1) hy⟩

/-- Error reply frame: BVLC 0x0A, plain NPDU, Error PDU with invoke id 2,
error class 1, error code 32. -/
def errFrameW : List Nat :=
  [0x81, 0x0A, 0x00, 0x0A, 0x01, 0x00, 0x50, 0x02, 0x01, 0x20]

/-- C2 (counterexample): the peer answers the present-value read (invoke
id 2) with an Error PDU carrying that same invoke id, yet the operation
fails with the timeout error, not with a classified error carrying the
conveyed reason. -/
theorem error_reply_yields_timeout_not_classified_error :
    frameApdu errFrameW = Except.ok (some (Apdu.errorPdu 2 1 32)) ∧
    read_present_value [(peerW, errFrameW)] peerW (0, 1) =
      OpResult.err (timeoutMessage peerW) := by
  exact ⟨rfl, rfl⟩

/-- C2 (amended): Error, Reject and Abort replies are never delivered as
classified failures: whatever the invoke id, the response parser discards
them (returning Ok none after logging), so the receive loop skips them
and the request can only end in a timeout. -/
theorem era_replies_discarded_on_parse (data : List Nat) (invoke : Nat)
    (apdu : Apdu) (hf : frameApdu data = Except.ok (some apdu))
    (hera : isErrRejAbort apdu = true) :
    parse_confirmed_response data invoke = Except.ok none ∧
    ∀ (addr : SockAddr) (rest : List (SockAddr × List Nat)) (svc : Nat) (sdata : List Nat),
      send_confirmed_request ((addr, data) :: rest) addr invoke svc sdata =
        send_confirmed_request rest addr invoke svc sdata := by
  have hp : parse_confirmed_response data invoke = Except.ok none := by
    unfold parse_confirmed_response
    rw [hf]
    cases apdu <;> simp_all [isErrRejAbort]
  refine ⟨hp, fun addr rest svc sdata => ?_⟩
  simp only [send_confirmed_request, if_pos rfl, hp]
  simp

/-- Witness for the amended C2 at the concrete Error frame. -/
theorem era_replies_discarded_on_parse_witness :
    isErrRejAbort (Apdu.errorPdu 2 1 32) = true ∧
    parse_confirmed_response errFrameW 2 = Except.ok none ∧
    send_confirmed_request [(peerW, errFrameW)] peerW 2 12 [] =
      send_confirmed_request [] peerW 2 12 [] := by
  have h := era_replies_discarded_on_parse errFrameW 2 (Apdu.errorPdu 2 1 32)
    (by rfl) (by rfl)
  exact ⟨rfl, h.1, h.2 peerW [] 12 []⟩

/-- ReadProperty ack body as the conforming responder in
src/bin/responder.rs emits it for AnalogInput:1: object identifier,
property 85, then the Real 22.5 inside the 0x3E and 0x3F ack wrapper. -/
def ackBodyW : List Nat :=
  [0x0C, 0x00, 0x00, 0x00, 0x01, 0x19, 0x55, 0x3E, 0x44, 0x41, 0xB4, 0x00, 0x00, 0x3F]

/-- Full ComplexAck frame carrying ackBodyW with invoke id 2. -/
def ackFrameW : List Nat :=
  [0x81, 0x0A, 0x00, 0x17, 0x01, 0x00, 0x30, 0x02, 0x0C] ++ ackBodyW

/-- C3: on the ack body a conforming responder produces (0x3E wrapper,
Real 22.5), read_present_value returns N/A instead of the rendered value
22.50, because the code compares the leading octet against 0x2E although
its own comment and the responder use opening tag 3 (0x3E). -/
theorem conforming_ack_renders_na :
    parse_present_value ackBodyW = "N/A" ∧
    read_present_value [(peerW, ackFrameW)] peerW (0, 1) = OpResult.ok "N/A" ∧
    ("N/A" : String) ≠ "22.50" := by
  exact ⟨rfl, rfl, by decide⟩

/-- C9: with the ack propertyValue wrapper 0x3E present and an unknown
application tag 0x99 inside, the parser returns N/A rather than the
claimed rendering Tag 0x99 (the Tag 0xNN path is only reachable behind
the 0x2E comparison). -/
theorem ack_wrapper_unknown_tag_renders_na :
    parse_present_value [0x3E, 0x99, 0x3F] = "N/A" ∧
    parse_present_value [0x3E, 0x99, 0x3F] ≠ "Tag 0x99" ∧
    parse_present_value [0x2E, 0x99, 0x2F] = "Tag 0x99" := by
  exact ⟨rfl, by decide, rfl⟩

/-- C10: parse_confirmed_response is not total: on a Forwarded-NPDU frame
(function 0x04) of length four, the unguarded slice from offset ten
panics exactly as Rust does on an out-of-range slice start. -/
theorem parse_confirmed_response_short_forwarded_npdu_out_of_range :
    parse_confirmed_response [0x81, 0x04, 0x00, 0x00] 7 =
      Except.error "range start index 10 out of range for slice of length 4" := by
  rfl
